import Mathlib

/-!
# Verification of the simfleet Directory/Registry and Simulator lifecycle

Shallow embedding of `src/taxi_simulator/directory.py` and
`src/taxi_simulator/simulator.py`, together with theorems settling the
specification claims about them.

Conventions of the embedding:
* Python `dict`s with string keys are modelled as insertion-ordered
  association lists `List (String × _)`; a dict comprehension is a `filter`,
  a fresh-key insertion appends at the end (CPython preserves insertion
  order).
* Clock reads (`time.time()`) are passed in as an explicit `now : Nat`
  parameter; Python truthiness of an optional number (`if not x`) holds for
  both `None` and `0`, captured by `isFalsyNat`.
* Fallible external calls (message `send`) are parameterised by a boolean
  saying whether the call raises; raised Python exceptions are `Option
  String` outcomes (or `Except PyErr` where the error value matters).
-/

namespace Simfleet

/-! ## Protocol constants (`protocol.py` is external to the embedded files;
only the identity/distinctness of these strings is ever used). -/

def REQUEST_PERFORMATIVE : String := "request"

def ACCEPT_PERFORMATIVE : String := "accept"

def CANCEL_PERFORMATIVE : String := "cancel"

def INFORM_PERFORMATIVE : String := "inform"

/-! ## Directory registry state

`DirectoryAgent.__init__` sets `service_agents = {}`: an insertion-ordered
dict from service type to the list of registered identities (jids). -/

abbrev ServiceMap := List (String × List String)

/-- Dict key lookup: `service[ty]` / `ty in service`. -/
def lookupAssoc : ServiceMap → String → Option (List String)
  | [], _ => none
  | (k, v) :: rest, ty => if k = ty then some v else lookupAssoc rest ty

/-- `RegistrationBehaviour.add_service`: if the type is already a key, append
the jid to its list; otherwise create the key with a singleton list (new dict
keys go at the end of the insertion order). -/
def add_service : ServiceMap → String → String → ServiceMap
  | [], ty, jid => [(ty, [jid])]
  | (k, v) :: rest, ty, jid =>
    if k = ty then (k, v ++ [jid]) :: rest
    else (k, v) :: add_service rest ty jid

/-- The reply a lookup request produces: an INFORM message whose body is the
serialized identity list, or an empty-bodied CANCEL message. -/
inductive Reply where
  | inform (ids : List String)
  | cancel
  deriving DecidableEq, Repr

/-- The reply branch of `DirectoryStrategyBehaviour.run` for a
REQUEST-performative message: `if request in service_agents` reply with the
full list (`send_services`), else reply negatively (`send_negative`). -/
def directory_lookup (service : ServiceMap) (ty : String) : Reply :=
  match lookupAssoc service ty with
  | some ids => Reply.inform ids
  | none => Reply.cancel

/-- Replay a sequence of registrations `(type, jid)` against the empty
initial `service_agents` dict. -/
def registerAll (ops : List (String × String)) : ServiceMap :=
  ops.foldl (fun s op => add_service s op.1 op.2) []

/-! ### Lemmas about registration -/

lemma lookupAssoc_add_service (s : ServiceMap) (t jid ty : String) :
    lookupAssoc (add_service s t jid) ty =
      if t = ty then some ((lookupAssoc s ty).getD [] ++ [jid])
      else lookupAssoc s ty := by
  induction s with
  | nil =>
    by_cases h : t = ty <;> simp [add_service, lookupAssoc, h]
  | cons p rest ih =>
    obtain ⟨k, v⟩ := p
    by_cases hk : k = t
    · subst hk
      by_cases h : k = ty <;> simp [add_service, lookupAssoc, h]
    · by_cases h : k = ty
      · subst h
        have ht : ¬ t = k := fun he => hk he.symm
        simp [add_service, lookupAssoc, hk, ht]
      · simp [add_service, lookupAssoc, hk, h, ih]

lemma lookupAssoc_registerAll_from (ops : List (String × String))
    (s : ServiceMap) (ty : String) :
    lookupAssoc (ops.foldl (fun s op => add_service s op.1 op.2) s) ty =
      (if (ops.filter (fun op => op.1 = ty)).isEmpty then lookupAssoc s ty
       else some ((lookupAssoc s ty).getD [] ++
         (ops.filter (fun op => op.1 = ty)).map Prod.snd)) := by
  induction ops generalizing s with
  | nil => simp
  | cons op rest ih =>
    obtain ⟨t, jid⟩ := op
    by_cases h : t = ty
    · subst h
      rw [List.foldl_cons, ih, lookupAssoc_add_service]
      cases hf : rest.filter (fun op => op.1 = t) with
      | nil => simp [List.filter_cons, hf]
      | cons q qs => simp [List.filter_cons, hf, List.append_assoc]
    · rw [List.foldl_cons, ih, lookupAssoc_add_service]
      rw [List.filter_cons_of_neg (by simp [h])]
      simp [h]

/-! ## Directory behaviour loop iterations

`RegistrationBehaviour.run` wraps its whole body in `try/except Exception`;
`DirectoryStrategyBehaviour.run` has no exception handling at all.  A loop
iteration consumes an optional received message (the `receive(timeout=5)`
result, `none` on timeout) and is parameterised by `sendOk : Bool`, whether
the external `send` call succeeds (the messaging substrate may raise).  The
second component of the result is the exception (if any) that propagates out
of the iteration. -/

/-- A message on the registration protocol.  `body = none` models a body on
which `json.loads` raises (malformed payload); `some (ty, jid)` a decoded
`{"type": ty, "jid": jid}` record. -/
structure RegMsg where
  sender : String
  performative : String
  body : Option (String × String)
  deriving DecidableEq, Repr

/-- A message on the request (lookup) protocol; the body is the raw service
type string. -/
structure StratMsg where
  sender : String
  performative : String
  body : String
  deriving DecidableEq, Repr

/-- The body of `RegistrationBehaviour.run` without its `try/except`: decode
the payload (raising on malformed JSON), update `service_agents`, then send
the ACCEPT confirmation (raising if the substrate raises). -/
def registration_run_raw (service : ServiceMap) (msg : Option RegMsg)
    (sendOk : Bool) : ServiceMap × Option String :=
  match msg with
  | none => (service, none)
  | some m =>
    if m.performative = REQUEST_PERFORMATIVE then
      match m.body with
      | none => (service, some "json.loads raised ValueError")
      | some (ty, jid) =>
        let service := add_service service ty jid
        if sendOk then (service, none)
        else (service, some "send raised")
    else (service, none)

/-- `RegistrationBehaviour.run`: the `try/except Exception` catches whatever
the body raises, logs it, and the iteration completes normally. -/
def registration_run (service : ServiceMap) (msg : Option RegMsg)
    (sendOk : Bool) : ServiceMap × Option String :=
  ((registration_run_raw service msg sendOk).1, none)

/-- `DirectoryStrategyBehaviour.run`: no `try/except`, so a raising `send`
propagates out of the iteration.  On a REQUEST message it replies (one
single message) with the service list when the body is a known type
(`send_services`) or with a CANCEL message otherwise (`send_negative`).
Result: (state, messages actually sent, propagated exception). -/
def strategy_run (service : ServiceMap) (msg : Option StratMsg)
    (sendOk : Bool) : ServiceMap × List Reply × Option String :=
  match msg with
  | none => (service, [], none)
  | some m =>
    if m.performative = REQUEST_PERFORMATIVE then
      if sendOk then (service, [directory_lookup service m.body], none)
      else (service, [], some "send raised")
    else (service, [], none)

/-! ## Deregistration

`RegistrationBehaviour.remove_service(type, agent)` executes
`del (self.get("service_agents")[type][agent])`.  The outer subscript is a
dict access (KeyError when the type is absent); the inner `del` subscripts a
*list* with the agent value. -/

/-- Python exception values relevant to the embedded fragment. -/
inductive PyErr where
  | keyError (key : String)
  | indexError
  | typeError (msg : String)
  deriving DecidableEq, Repr

/-- A Python subscript value: an integer index or a string. -/
inductive PyIndex where
  | int (i : Int)
  | str (s : String)
  deriving DecidableEq, Repr

/-- CPython `del lst[sub]` on a list: an integer index (negative counts from
the end) removes that element, out of range raises IndexError, and any
string subscript raises `TypeError: list indices must be integers or
slices, not str`. -/
def listDelItem (l : List String) : PyIndex → Except PyErr (List String)
  | PyIndex.int i =>
    let j : Int := if i < 0 then i + l.length else i
    if 0 ≤ j ∧ j < (l.length : Int) then
      Except.ok (l.eraseIdx j.toNat)
    else
      Except.error PyErr.indexError
  | PyIndex.str _ =>
    Except.error (PyErr.typeError "list indices must be integers or slices, not str")

/-- Replace the list stored under a (present) dict key. -/
def setAssoc : ServiceMap → String → List String → ServiceMap
  | [], _, _ => []
  | (k, v) :: rest, ty, l =>
    if k = ty then (k, l) :: rest else (k, v) :: setAssoc rest ty l

/-- `RegistrationBehaviour.remove_service`: dict lookup of the type (KeyError
if absent), then `del list[agent]` where `agent` is the identity passed by
the caller. -/
def remove_service (service : ServiceMap) (ty : String) (agent : PyIndex) :
    Except PyErr ServiceMap :=
  match lookupAssoc service ty with
  | none => Except.error (PyErr.keyError ty)
  | some l =>
    (listDelItem l agent).map (fun l2 => setAssoc service ty l2)

/-! ## Simulator state (`simulator.py`)

`SimulatorAgent` keeps three insertion-ordered dicts of agents
(`manager_agents`, `transport_agents`, `customer_agents`), the clock fields
`simulation_running`, `simulation_time`, `simulation_init_time`, the
`kill_simulator` event, the configured `max_time` and the three strategy
classes loaded by `set_strategies`. -/

/-- The part of a participant agent the simulator reads or writes: the
`stopped` flag, the injected strategy (a class, abstracted as a number), and
the customer observables used by the stats aggregator (`is_in_destination`,
`get_waiting_time`, `total_time` — their computations live in the external
customer module; only their results matter here). -/
structure AgentH where
  stopped : Bool
  strategy : Option Nat
  in_destination : Bool
  waiting_time : Nat
  total_time : Option Nat
  deriving DecidableEq, Repr

abbrev AgentDict := List (String × AgentH)

structure SimState where
  manager_agents : AgentDict
  transport_agents : AgentDict
  customer_agents : AgentDict
  simulation_running : Bool
  simulation_time : Option Nat
  simulation_init_time : Option Nat
  kill_simulator : Bool
  max_time : Option Nat
  fleetmanager_strategy : Nat
  transport_strategy : Nat
  customer_strategy : Nat
  deriving DecidableEq, Repr

/-- Python truthiness test `not x` on an optional number: true for `None`
and for `0`. -/
def isFalsyNat : Option Nat → Bool
  | none => true
  | some n => n == 0

/-- `SimulatorAgent.get_simulation_time`: `0` if the init timestamp is unset
(falsy), the live difference while running, otherwise the frozen
`simulation_time` field (which Python would return even if it is `None`,
hence the `Option` codomain). -/
def get_simulation_time (now : Nat) (s : SimState) : Option Nat :=
  if isFalsyNat s.simulation_init_time then some 0
  else if s.simulation_running then some (now - s.simulation_init_time.getD 0)
  else s.simulation_time

/-- `SimulatorAgent.clear_stopped_agents`: keep only the agents whose
`stopped` flag is false (a dict comprehension preserves order and values),
and null both clock fields. -/
def clear_stopped_agents (s : SimState) : SimState :=
  { s with
    manager_agents := s.manager_agents.filter (fun p => !p.2.stopped),
    transport_agents := s.transport_agents.filter (fun p => !p.2.stopped),
    customer_agents := s.customer_agents.filter (fun p => !p.2.stopped),
    simulation_time := none,
    simulation_init_time := none }

/-- `agent.add_strategy(cls)`: the agent now carries the injected strategy. -/
def inject_strategy (strat : Nat) (a : AgentH) : AgentH :=
  { a with strategy := some strat }

/-- `SimulatorAgent.run` at wall-clock instant `now`: first
`clear_stopped_agents()`, then — only if not already running — clear the
kill event, inject the per-kind strategies into every current agent, set
`simulation_running` and stamp `simulation_init_time`. -/
def SimState.run (now : Nat) (s : SimState) : SimState :=
  let s := clear_stopped_agents s
  if s.simulation_running then s
  else
    { s with
      kill_simulator := false,
      manager_agents :=
        s.manager_agents.map (fun p => (p.1, inject_strategy s.fleetmanager_strategy p.2)),
      transport_agents :=
        s.transport_agents.map (fun p => (p.1, inject_strategy s.transport_strategy p.2)),
      customer_agents :=
        s.customer_agents.map (fun p => (p.1, inject_strategy s.customer_strategy p.2)),
      simulation_running := true,
      simulation_init_time := some now }

/-- `agent.stop(); agent.stopped = True` applied to a dict entry. -/
def stopEntry (p : String × AgentH) : String × AgentH :=
  (p.1, { p.2 with stopped := true })

/-- `SimulatorAgent.stop_agents`: set the kill event, drop
`simulation_running`, freeze `simulation_time` if it is falsy (to
`now - init` when the init timestamp is truthy, else `0`), then mark every
transport and every customer stopped under the lock.  The manager loop is
commented out in the source: managers are untouched. -/
def stop_agents (now : Nat) (s : SimState) : SimState :=
  { s with
    kill_simulator := true,
    simulation_running := false,
    simulation_time :=
      if isFalsyNat s.simulation_time then
        some (if isFalsyNat s.simulation_init_time then 0
              else now - s.simulation_init_time.getD 0)
      else s.simulation_time,
    transport_agents := s.transport_agents.map stopEntry,
    customer_agents := s.customer_agents.map stopEntry }

/-- `SimulatorAgent.stop`: record the elapsed time, then `stop_agents`
(printing stats and stopping the external route agent do not touch this
state). -/
def SimState.stop (now : Nat) (s : SimState) : SimState :=
  let s := { s with simulation_time := get_simulation_time now s }
  stop_agents now s

/-! ## Stats aggregator -/

/-- `SimulatorAgent.is_simulation_finish`: all customers at destination;
false when there are no customers. -/
def is_simulation_finish (s : SimState) : Bool :=
  if s.customer_agents.length > 0 then
    s.customer_agents.all (fun p => p.2.in_destination)
  else false

/-- `SimulatorAgent.time_is_out`: elapsed simulation time strictly above the
configured `max_time` (only called when `max_time` is set). -/
def time_is_out (now : Nat) (s : SimState) : Bool :=
  (get_simulation_time now s).getD 0 > s.max_time.getD 0

/-- `SimulatorAgent.is_simulation_finished`: false when no `max_time` is
configured, else time-out or all customers at destination. -/
def is_simulation_finished (now : Nat) (s : SimState) : Bool :=
  match s.max_time with
  | none => false
  | some _ => time_is_out now s || is_simulation_finish s

/-- Modelled from the spec: `utils.avg` is not part of the embedded files
(`utils.py` is absent from src/); §4.4 specifies the arithmetic mean, and 0
is the degenerate value for an empty list. -/
def avg (l : List Nat) : ℚ :=
  if l.isEmpty then 0 else ((l.sum : ℚ) / (l.length : ℚ))

/-- Python truthiness of a customer's `total_time()` result (`None` and `0`
are falsy), used by the filter in `get_stats`. -/
def truthyTotal (a : AgentH) : Bool :=
  match a.total_time with
  | none => false
  | some n => n != 0

/-- The stats record built by `SimulatorAgent.get_stats` (the two averages
are reported numerically; the source formats them with two decimals). -/
structure Stats where
  waiting : ℚ
  totaltime : ℚ
  finished : Bool
  is_running : Bool
  deriving DecidableEq, Repr

/-- `SimulatorAgent.get_stats`: averages over the customer collection when
it is non-empty (`waiting` over all customers, `totaltime` over the
customers whose `total_time()` is truthy), both `0` otherwise; plus the
finished flag and the running flag. -/
def get_stats (now : Nat) (s : SimState) : Stats :=
  let p : ℚ × ℚ :=
    if s.customer_agents.length > 0 then
      (avg (s.customer_agents.map (fun c => c.2.waiting_time)),
       avg ((s.customer_agents.filter (fun c => truthyTotal c.2)).map
          (fun c => c.2.total_time.getD 0)))
    else (0, 0)
  { waiting := p.1,
    totaltime := p.2,
    finished := is_simulation_finished now s,
    is_running := s.simulation_running }

/-! ## Round-robin manager assignment

`managers_generator` is `for manager in cycle(manager_agents.values()):
yield str(manager.jid)`.  Calling the generator function only builds the
generator (no body code runs); each `next` yields the values cyclically, and
`next` on a cycle of an empty collection raises StopIteration.  The cursor
holds the snapshot of jids and the number of `next` calls already served. -/

structure Cursor where
  snapshot : List String
  pos : Nat
  deriving DecidableEq, Repr

/-- One `next(generator)` call: `none` models StopIteration (empty
snapshot); otherwise the cyclic element and the advanced cursor. -/
def Cursor.next (c : Cursor) : Option (String × Cursor) :=
  if c.snapshot.isEmpty then none
  else some (c.snapshot.getD (c.pos % c.snapshot.length) "",
             ⟨c.snapshot, c.pos + 1⟩)

/-- `SimulatorAgent.managers_generator` applied to the current manager jids:
builds the generator, serving elements from the start. -/
def managers_generator (jids : List String) : Cursor := ⟨jids, 0⟩

/-- `SimulatorAgent.manager_assignment`: (re)binds `manager_generator` to a
fresh generator.  Building a Python generator cannot raise, so the result is
always `ok`; the `Except` codomain records that no error can surface at
build time. -/
def manager_assignment (jids : List String) : Except String Cursor :=
  Except.ok (managers_generator jids)

/-- The value produced by the `k`-th `next` call (0-based) on a cursor,
`none` if StopIteration is raised. -/
def nextN (c : Cursor) : Nat → Option String
  | 0 => (Cursor.next c).map Prod.fst
  | k + 1 =>
    match Cursor.next c with
    | none => none
    | some (_, c2) => nextN c2 k

/-! ## Batched agent creation with cancellation

`create_agents_batch(cls, number)` splits `number` into chunks
`[20] * (number // 20) ++ [number % 20]`; inside a chunk, every per-agent
step takes the lock, checks `kill_simulator.is_set()` and `break`s out of
the chunk if set, otherwise creates one agent.  The external thread that
sets the flag is modelled by a threshold `kill : Nat`: the flag reads as set
on every check whose global check counter is `≥ kill` (the event is set once
and stays set). -/

/-- The chunk list `[20] * (number // 20) + [number % 20]`. -/
def batch_iterations (number : Nat) : List Nat :=
  List.replicate (number / 20) 20 ++ [number % 20]

/-- One chunk of `m` per-agent steps starting at global check counter `c`:
returns the number of agents created in the chunk and the counter after it.
A step first checks the flag (consuming one check); if set it breaks (the
rest of the chunk runs no checks), otherwise it creates one agent. -/
def runChunk : Nat → Nat → Nat → Nat × Nat
  | 0, c, _ => (0, c)
  | m + 1, c, kill =>
    if kill ≤ c then (0, c + 1)
    else
      let r := runChunk m (c + 1) kill
      (r.1 + 1, r.2)

/-- Folding one chunk into the running pair (agents created so far, global
check counter). -/
def batchStep (kill : Nat) (st : Nat × Nat) (m : Nat) : Nat × Nat :=
  let r := runChunk m st.2 kill
  (st.1 + r.1, r.2)

/-- `SimulatorAgent.create_agents_batch` under the kill schedule `kill`:
total number of agents created (`number = max(number, 0)` first, as in the
source). -/
def create_agents_batch (number kill : Nat) : Nat :=
  ((batch_iterations (max number 0)).foldl (batchStep kill) (0, 0)).1

/-! ## Concrete states used to instantiate the theorems -/

/-- The simulator state right after `__init__` (clock never started, kill
event cleared, no agents yet, some loaded strategy classes). -/
def initialSimState : SimState :=
  { manager_agents := [], transport_agents := [], customer_agents := [],
    simulation_running := false, simulation_time := none,
    simulation_init_time := none, kill_simulator := false, max_time := none,
    fleetmanager_strategy := 1, transport_strategy := 2,
    customer_strategy := 3 }

def agentAlive : AgentH :=
  { stopped := false, strategy := none, in_destination := false,
    waiting_time := 3, total_time := none }

def agentHalted : AgentH := { agentAlive with stopped := true }

/-- A state with a mix of stopped and live agents in each collection. -/
def mixedSimState : SimState :=
  { initialSimState with
    manager_agents := [("m1", agentAlive)],
    transport_agents := [("t1", agentAlive), ("t2", agentHalted)],
    customer_agents := [("c1", agentHalted), ("c2", agentAlive)] }

/-- A state in which the simulation is already running (started at t=5). -/
def runningSimState : SimState :=
  { initialSimState with
    simulation_running := true,
    simulation_init_time := some 5 }

/-- Zero customers, `max_time = 10`, started at t=1 and still running. -/
def timeoutSimState : SimState :=
  { initialSimState with
    max_time := some 10,
    simulation_running := true,
    simulation_init_time := some 1 }

/-! # Theorems -/

/-! ## Auxiliary lemmas -/

lemma lookupAssoc_registerAll (ops : List (String × String)) (ty : String) :
    lookupAssoc (registerAll ops) ty =
      (if (ops.filter (fun op => op.1 = ty)).isEmpty then none
       else some ((ops.filter (fun op => op.1 = ty)).map Prod.snd)) := by
  unfold registerAll
  rw [lookupAssoc_registerAll_from]
  by_cases he : (ops.filter (fun op => op.1 = ty)).isEmpty <;>
    simp [he, lookupAssoc]

lemma nextN_formula (l : List String) (h : l ≠ []) (p k : Nat) :
    nextN ⟨l, p⟩ k = some (l.getD ((p + k) % l.length) "") := by
  induction k generalizing p with
  | zero => simp [nextN, Cursor.next, List.isEmpty_iff, h]
  | succ k ih =>
    have : p + (k + 1) = (p + 1) + k := by omega
    simp [nextN, Cursor.next, List.isEmpty_iff, h, ih, this]

lemma runChunk_all (m : Nat) : ∀ c kill : Nat, c + m ≤ kill →
    runChunk m c kill = (m, c + m) := by
  induction m with
  | zero => intro c kill _; simp [runChunk]
  | succ m ih =>
    intro c kill h
    have hc : ¬ kill ≤ c := by omega
    have hrec := ih (c + 1) kill (by omega)
    simp [runChunk, hc, hrec]
    omega

lemma runChunk_trip (m : Nat) : ∀ c kill : Nat, c ≤ kill → kill < c + m →
    runChunk m c kill = (kill - c, kill + 1) := by
  induction m with
  | zero => intro c kill h1 h2; omega
  | succ m ih =>
    intro c kill h1 h2
    by_cases hc : kill ≤ c
    · have : kill = c := by omega
      simp [runChunk, hc, this]
    · have hrec := ih (c + 1) kill (by omega) (by omega)
      simp [runChunk, hc, hrec]
      omega

lemma runChunk_dead (m c kill : Nat) (h : kill ≤ c) :
    runChunk m c kill = (0, c + min m 1) := by
  cases m with
  | zero => simp [runChunk]
  | succ m => simp [runChunk, h]

lemma foldBatch_created_dead (kill : Nat) (cs : List Nat) : ∀ c : Nat,
    kill ≤ c → ((cs.foldl (batchStep kill) (kill, c)).1 = kill) := by
  induction cs with
  | nil => intro c _; simp
  | cons m rest ih =>
    intro c hc
    have hstep : batchStep kill (kill, c) m = (kill, c + min m 1) := by
      simp [batchStep, runChunk_dead m c kill hc]
    rw [List.foldl_cons, hstep, ih (c + min m 1) (by omega)]

lemma foldBatch_created_live (kill : Nat) (cs : List Nat) : ∀ cr : Nat,
    cr ≤ kill →
    ((cs.foldl (batchStep kill) (cr, cr)).1 = min (cr + cs.sum) kill) := by
  induction cs with
  | nil => intro cr hcr; simp; omega
  | cons m rest ih =>
    intro cr hcr
    by_cases hm : cr + m ≤ kill
    · have hstep : batchStep kill (cr, cr) m = (cr + m, cr + m) := by
        simp [batchStep, runChunk_all m cr kill hm]
      rw [List.foldl_cons, hstep, ih (cr + m) hm]
      simp [List.sum_cons]
      omega
    · have hstep : batchStep kill (cr, cr) m = (kill, kill + 1) := by
        have ht := runChunk_trip m cr kill hcr (by omega)
        simp [batchStep, ht]
        omega
      rw [List.foldl_cons, hstep,
        foldBatch_created_dead kill rest (kill + 1) (by omega)]
      simp [List.sum_cons]
      omega

lemma sum_batch_iterations (n : Nat) : (batch_iterations n).sum = n := by
  simp [batch_iterations, List.sum_replicate]
  omega

lemma create_agents_batch_eq_min (number kill : Nat) :
    create_agents_batch number kill = min number kill := by
  unfold create_agents_batch
  rw [foldBatch_created_live kill _ 0 (Nat.zero_le _)]
  simp [sum_batch_iterations]

/-! ## C1 — registry lookup returns exactly the registered identities -/

/-- C1: after any sequence of registrations (from the empty registry), a
lookup REQUEST for service type `m.body` is answered with exactly one reply:
the identities registered under that type, in registration order with
duplicates preserved, when the type is a key of the map; a CANCEL reply
otherwise — and the reply is negative exactly when the type is absent. -/
theorem lookup_after_registrations (ops : List (String × String))
    (m : StratMsg) (hperf : m.performative = REQUEST_PERFORMATIVE) :
    strategy_run (registerAll ops) (some m) true =
      (registerAll ops,
       [if (ops.filter (fun op => op.1 = m.body)).isEmpty then Reply.cancel
        else Reply.inform ((ops.filter (fun op => op.1 = m.body)).map Prod.snd)],
       none) ∧
    (directory_lookup (registerAll ops) m.body = Reply.cancel ↔
      lookupAssoc (registerAll ops) m.body = none) := by
  have hl := lookupAssoc_registerAll ops m.body
  constructor
  · simp only [strategy_run, hperf, if_pos rfl, directory_lookup, hl]
    by_cases he : (ops.filter (fun op => op.1 = m.body)).isEmpty <;> simp [he]
  · simp only [directory_lookup, hl]
    by_cases he : (ops.filter (fun op => op.1 = m.body)).isEmpty <;> simp [he]

/-- Witness for C1 at a concrete registration sequence and lookup message:
two identities registered under "fleet" (plus an unrelated one) are returned
in order; the reply for "fleet" is not negative. -/
theorem lookup_after_registrations_witness :
    strategy_run (registerAll [("fleet", "m1"), ("bus", "b1"), ("fleet", "m2")])
        (some ⟨"c1", REQUEST_PERFORMATIVE, "fleet"⟩) true =
      (registerAll [("fleet", "m1"), ("bus", "b1"), ("fleet", "m2")],
       [Reply.inform ["m1", "m2"]], none) ∧
    ¬ (directory_lookup
        (registerAll [("fleet", "m1"), ("bus", "b1"), ("fleet", "m2")]) "fleet"
          = Reply.cancel) := by
  have h := lookup_after_registrations
    [("fleet", "m1"), ("bus", "b1"), ("fleet", "m2")]
    ⟨"c1", REQUEST_PERFORMATIVE, "fleet"⟩ rfl
  refine ⟨?_, ?_⟩
  · rw [h.1]; decide
  · intro hc
    have := h.2.mp hc
    revert this; decide

/-! ## C2 — a second `start()` resets the elapsed-time origin -/

/-- C2 counterexample: start at t=5 from the initial state; at t=7 the
elapsed time is 2.  Start again at t=7 (no intervening stop): at t=9 the
reported elapsed time is 0 — not 4 (measured from the first start) and not
strictly greater than the 2 reported between the two calls, because `run`
unconditionally clears the clock and the already-running branch never
re-stamps it. -/
theorem second_start_elapsed_counterexample :
    get_simulation_time 7 (SimState.run 5 initialSimState) = some 2 ∧
    get_simulation_time 9 (SimState.run 7 (SimState.run 5 initialSimState))
      = some 0 ∧
    ¬ ((get_simulation_time 9
          (SimState.run 7 (SimState.run 5 initialSimState))).getD 0 = 9 - 5 ∧
       2 < (get_simulation_time 9
          (SimState.run 7 (SimState.run 5 initialSimState))).getD 0) := by
  decide

/-- C2 amended: calling `run` while the simulation is already running resets
the elapsed-time origin to the never-started state — `run` begins with
`clear_stopped_agents`, which nulls `simulation_init_time`, and the
already-running branch does not re-stamp it — so every elapsed-time reading
after the second `start()` is 0. -/
theorem second_start_resets_clock (s : SimState) (t u : Nat)
    (h : s.simulation_running = true) :
    (SimState.run t s).simulation_init_time = none ∧
    get_simulation_time u (SimState.run t s) = some 0 := by
  unfold SimState.run
  simp [clear_stopped_agents, h, get_simulation_time, isFalsyNat]

/-- Witness for C2's amended theorem at a concrete running state. -/
theorem second_start_resets_clock_witness :
    (SimState.run 7 runningSimState).simulation_init_time = none ∧
    get_simulation_time 9 (SimState.run 7 runningSimState) = some 0 :=
  second_start_resets_clock runningSimState 7 9 (by decide)

/-! ## C3 — round-robin rotation over the managers -/

/-- C3: for a non-empty manager jid list of length M, the first M `next`
calls on a fresh generator return exactly the M jids in collection order
(hence, when the jids are distinct, each exactly once), and the (M+1)-th
call returns the same jid as the first. -/
theorem round_robin_rotation (l : List String) (h : l ≠ []) :
    ((List.range l.length).map (fun k => nextN (managers_generator l) k)
      = l.map some) ∧
    nextN (managers_generator l) l.length = nextN (managers_generator l) 0 ∧
    (l.Nodup →
      ((List.range l.length).map
        (fun k => nextN (managers_generator l) k)).Nodup) := by
  have hlen : 0 < l.length := List.length_pos.mpr h
  have hmap : (List.range l.length).map (fun k => nextN (managers_generator l) k)
      = l.map some := by
    apply List.ext_getElem
    · simp
    · intro i h1 h2
      have hi : i < l.length := by simpa using h2
      simp only [List.getElem_map, List.getElem_range]
      rw [managers_generator, nextN_formula l h]
      simp [Nat.mod_eq_of_lt hi, List.getD_eq_getElem l "" hi,
        List.getElem?_eq_getElem hi]
  refine ⟨hmap, ?_, ?_⟩
  · rw [managers_generator, nextN_formula l h, nextN_formula l h]
    simp [Nat.mod_self, Nat.mod_eq_of_lt hlen]
  · intro hd
    rw [hmap]
    exact hd.map (Option.some_injective _)

/-- Witness for C3 with two managers: next yields m1, m2, then m1 again,
and the first two outputs are pairwise distinct. -/
theorem round_robin_rotation_witness :
    ((List.range 2).map (fun k => nextN (managers_generator ["m1", "m2"]) k)
      = ["m1", "m2"].map some) ∧
    nextN (managers_generator ["m1", "m2"]) 2
      = nextN (managers_generator ["m1", "m2"]) 0 ∧
    ((List.range 2).map
      (fun k => nextN (managers_generator ["m1", "m2"]) k)).Nodup := by
  have h := round_robin_rotation ["m1", "m2"] (by decide)
  exact ⟨h.1, h.2.1, h.2.2 (by decide)⟩

/-! ## C4 — building the cursor on an empty manager collection -/

/-- C4 counterexample: building the assignment cursor on the empty manager
collection does not fail — `manager_assignment` returns a generator — and
the failure (StopIteration, `none`) only surfaces on the first `next` call,
i.e. it is deferred to a later call, contrary to the claim. -/
theorem empty_cursor_build_counterexample :
    (manager_assignment []).isOk = true ∧
    Cursor.next (managers_generator []) = none := by
  decide

/-- C4 amended: cursor construction never fails, even on an empty manager
collection; the error surfaces on the first `next` call instead, which
raises StopIteration (returns no identity, rather than looping forever or
yielding a null identity) exactly when the collection is empty. -/
theorem empty_cursor_fails_on_first_next (l : List String) :
    (manager_assignment l).isOk = true ∧
    (Cursor.next (managers_generator l) = none ↔ l = []) := by
  constructor
  · rfl
  · cases l <;> simp [Cursor.next, managers_generator]

/-- Witness for C4's amended theorem at the empty and a singleton list. -/
theorem empty_cursor_fails_on_first_next_witness :
    (Cursor.next (managers_generator []) = none) ∧
    ¬ (Cursor.next (managers_generator ["m1"]) = none) := by
  refine ⟨(empty_cursor_fails_on_first_next []).2.mpr rfl, ?_⟩
  intro hc
  have := (empty_cursor_fails_on_first_next ["m1"]).2.mp hc
  revert this; decide

/-! ## C5 — cancellation during batched creation -/

/-- C5: if the kill flag becomes set during a batch of size K > 20 (the
flag reads as set from the `kill`-th per-agent check on, `kill < K`), the
batch creates exactly the `kill` agents whose creation step observed the
flag unset — strictly fewer than K, and none after the flag is set. -/
theorem batch_cancellation (K kill : Nat) (_hK : 20 < K) (hkill : kill < K) :
    create_agents_batch K kill = kill ∧ create_agents_batch K kill < K := by
  rw [create_agents_batch_eq_min]
  omega

/-- Witness for C5: a batch of 25 with the flag set from the 5th check
creates exactly 5 agents. -/
theorem batch_cancellation_witness :
    create_agents_batch 25 5 = 5 ∧ create_agents_batch 25 5 < 25 :=
  batch_cancellation 25 5 (by decide) (by decide)

/-! ## C6 — `stop()` stops transports and customers, not managers -/

/-- C6: after `stop()`, every transport and every customer in the live
collections has `stopped = true` (each obtained from the original entry by
setting only that flag), `simulation_running` is false, the kill event is
set, and the manager collection — including every manager's `stopped`
flag — is unchanged. -/
theorem stop_stops_transports_customers_not_managers (s : SimState)
    (now : Nat) :
    ((SimState.stop now s).transport_agents.all (fun p => p.2.stopped))
      = true ∧
    ((SimState.stop now s).customer_agents.all (fun p => p.2.stopped))
      = true ∧
    (SimState.stop now s).simulation_running = false ∧
    (SimState.stop now s).kill_simulator = true ∧
    (SimState.stop now s).manager_agents = s.manager_agents ∧
    (SimState.stop now s).transport_agents = s.transport_agents.map stopEntry ∧
    (SimState.stop now s).customer_agents = s.customer_agents.map stopEntry := by
  refine ⟨?_, ?_, rfl, rfl, rfl, rfl, rfl⟩ <;>
    simp [SimState.stop, stop_agents, List.all_map, Function.comp, stopEntry]

/-! ## C7 — `clearStoppedAgents()` is a stable filter -/

/-- C7: `clear_stopped_agents` turns each of the three collections into a
subsequence of itself (order preserved) whose members are exactly the
original entries with `stopped = false`, each kept with its state untouched;
and it resets both clock fields to the never-started `None`. -/
theorem clear_stopped_agents_stable_filter (s : SimState) :
    ((clear_stopped_agents s).manager_agents.Sublist s.manager_agents ∧
     (clear_stopped_agents s).transport_agents.Sublist s.transport_agents ∧
     (clear_stopped_agents s).customer_agents.Sublist s.customer_agents) ∧
    (∀ p, p ∈ (clear_stopped_agents s).manager_agents ↔
      p ∈ s.manager_agents ∧ p.2.stopped = false) ∧
    (∀ p, p ∈ (clear_stopped_agents s).transport_agents ↔
      p ∈ s.transport_agents ∧ p.2.stopped = false) ∧
    (∀ p, p ∈ (clear_stopped_agents s).customer_agents ↔
      p ∈ s.customer_agents ∧ p.2.stopped = false) ∧
    (clear_stopped_agents s).simulation_time = none ∧
    (clear_stopped_agents s).simulation_init_time = none := by
  refine ⟨⟨List.filter_sublist _, List.filter_sublist _, List.filter_sublist _⟩,
    ?_, ?_, ?_, rfl, rfl⟩ <;>
  · intro p
    simp [clear_stopped_agents, List.mem_filter]

/-- Witness for C7: in a concrete mixed state, the live transport survives
untouched, and the stopped customer is gone. -/
theorem clear_stopped_agents_stable_filter_witness :
    ("t1", agentAlive) ∈ (clear_stopped_agents mixedSimState).transport_agents ∧
    ¬ (("c1", agentHalted) ∈ (clear_stopped_agents mixedSimState).customer_agents) := by
  constructor
  · exact ((clear_stopped_agents_stable_filter mixedSimState).2.2.1
      ("t1", agentAlive)).mpr (by decide)
  · intro hmem
    have := ((clear_stopped_agents_stable_filter mixedSimState).2.2.2.1
      ("c1", agentHalted)).mp hmem
    revert this; decide

/-! ## C8 — exception safety of the Registry receive loops -/

/-- C8 counterexample: one iteration of the lookup/strategy behaviour on a
well-formed REQUEST message whose reply `send` raises propagates the
exception out of the iteration (`DirectoryStrategyBehaviour.run` has no
`try/except`), contradicting the claim for the strategy half of the
Registry. -/
theorem strategy_loop_propagates_counterexample :
    (strategy_run [("fleet", ["m1"])]
        (some ⟨"c1", REQUEST_PERFORMATIVE, "fleet"⟩) false).2.2
      = some "send raised" := by
  decide

/-- C8 amended: the registration behaviour's `try/except Exception` makes
every iteration complete without propagating anything — malformed bodies
(failing `json.loads`) and raising `send`s included — while the
lookup/strategy behaviour has no handler, so an iteration that processes a
REQUEST message whose reply `send` raises propagates the exception. -/
theorem registration_catches_strategy_propagates (service : ServiceMap)
    (msg : Option RegMsg) (sendOk : Bool) (service2 : ServiceMap)
    (m : StratMsg) (hperf : m.performative = REQUEST_PERFORMATIVE) :
    (registration_run service msg sendOk).2 = none ∧
    (strategy_run service2 (some m) false).2.2 = some "send raised" := by
  constructor
  · rfl
  · simp [strategy_run, hperf]

/-- Witness for C8's amended theorem: a malformed registration body is
swallowed, a failing lookup reply send is propagated. -/
theorem registration_catches_strategy_propagates_witness :
    (registration_run [] (some ⟨"m1", REQUEST_PERFORMATIVE, none⟩) true).2
      = none ∧
    (strategy_run [] (some ⟨"c1", REQUEST_PERFORMATIVE, "taxi"⟩) false).2.2
      = some "send raised" :=
  registration_catches_strategy_propagates []
    (some ⟨"m1", REQUEST_PERFORMATIVE, none⟩) true []
    ⟨"c1", REQUEST_PERFORMATIVE, "taxi"⟩ rfl

/-! ## C9 — `deregister` never removes a present identity -/

/-- C9 (code bug): with the identity "m1@host" registered under "fleet",
`remove_service("fleet", "m1@host")` does not remove the entry — it raises
`TypeError`, because `del (service_agents[type][agent])` subscripts a
*list* with the identity string.  The error is raised even though the
identity/type pair is present, so the pair-absent error condition of the
claim fails too. -/
theorem remove_service_present_pair_raises :
    remove_service [("fleet", ["m1@host"])] "fleet" (PyIndex.str "m1@host")
      = Except.error
          (PyErr.typeError "list indices must be integers or slices, not str") ∧
    "m1@host" ∈ (lookupAssoc [("fleet", ["m1@host"])] "fleet").getD [] :=
  ⟨rfl, by decide⟩

/-! ## C10 — stats with zero customers -/

/-- C10 counterexample: a state with zero customers, `max_time = 10`,
started at t=1 and read at t=20: the aggregator reports `finished = true`
(the time-out disjunct), contradicting the claim that the finished flag is
false whenever the customer collection is empty. -/
theorem empty_customers_finished_counterexample :
    timeoutSimState.customer_agents = [] ∧
    (get_stats 20 timeoutSimState).finished = true := by
  constructor
  · rfl
  · rfl

/-- C10 amended: with zero customers both averages are exactly 0 (never NaN
or an error), the all-customers-at-destination predicate is false (not
vacuously true), and the reported finished flag reduces to the time-out
test alone: false when no `max_time` is configured, and otherwise true
exactly when the elapsed time exceeds it. -/
theorem empty_customers_stats (now : Nat) (s : SimState)
    (h : s.customer_agents = []) :
    (get_stats now s).waiting = 0 ∧
    (get_stats now s).totaltime = 0 ∧
    is_simulation_finish s = false ∧
    (get_stats now s).finished =
      (match s.max_time with
       | none => false
       | some _ => time_is_out now s) := by
  have hfin : is_simulation_finish s = false := by
    simp [is_simulation_finish, h]
  refine ⟨?_, ?_, hfin, ?_⟩
  · simp [get_stats, h]
  · simp [get_stats, h]
  · simp only [get_stats, is_simulation_finished]
    cases s.max_time <;> simp [hfin]

/-- Witness for C10's amended theorem: zero customers with no `max_time`
gives averages 0 and `finished = false`. -/
theorem empty_customers_stats_witness :
    (get_stats 9 initialSimState).waiting = 0 ∧
    (get_stats 9 initialSimState).totaltime = 0 ∧
    is_simulation_finish initialSimState = false ∧
    (get_stats 9 initialSimState).finished = false := by
  have h := empty_customers_stats 9 initialSimState rfl
  exact ⟨h.1, h.2.1, h.2.2.1, h.2.2.2⟩

end Simfleet
